import Mathlib

/-!
Verification of the OpalForge model locator and loader ("Model Locator &
Loader" component).  The source is a browser script whose interesting
behaviour is the function `loadModel`: it checks that the inference runtime
(`tf`) is present and exposes `loadLayersModel`, then walks an ordered list
of candidate manifest locations, probing each with `tryFetchInfo` and, when
the probe succeeds, attempting a full model load; the first candidate that
both probes and loads successfully wins.  We embed that control flow as pure
Lean functions over an explicit environment that supplies the answers of the
external `fetch` and `tf.loadLayersModel` operations, and prove the outcome
contract of the component against the embedding.
-/

namespace OpalForge

deriving instance DecidableEq for Except

/-- Behaviour of the external `fetch(url, { method: 'GET' })` call for one
URL: either the promise rejects (the `catch (e)` branch, carrying `String(e)`)
or it resolves to a response with its `ok` flag, `status`, effective `url`,
`access-control-allow-origin` header, and a body read that itself either
yields the response text or fails. -/
inductive FetchBehavior where
  | throws (e : String)
  | response (ok : Bool) (status : Nat) (url : String) (acao : Option String)
      (bodyText : Except String String)
deriving DecidableEq

/-- The `info` object built by `tryFetchInfo`: either the error object of the
catch-all branch (`{ ok: false, error: String(e) }`) or the populated record
(`{ ok, status, url, acao, preview }`). -/
inductive ProbeResult where
  | fetchError (error : String)
  | fetched (ok : Bool) (status : Nat) (url : String) (acao : Option String)
      (preview : String)
deriving DecidableEq

/-- The `ok` field of the probe-result object: `false` for the catch-all
error object, the response flag otherwise. -/
def ProbeResult.isOk : ProbeResult → Bool
  | .fetchError _ => false
  | .fetched ok _ _ _ _ => ok

/-- The `error` field of the probe-result object: present exactly on the
catch-all error object. -/
def ProbeResult.errorDesc : ProbeResult → Option String
  | .fetchError e => some e
  | .fetched _ _ _ _ _ => none

/-- The external world as `loadModel` observes it: whether `tf` is defined,
whether `tf.loadLayersModel` is a function, what `fetch` does on each URL,
and what `tf.loadLayersModel` does on each URL (a model handle, kept
abstract as a `Nat`, or a thrown error). -/
structure Env where
  tfDefined : Bool
  loadLayersModelIsFunction : Bool
  fetch : String → FetchBehavior
  loadLayersModel : String → Except String Nat

/-- Embedding of `tryFetchInfo(url)`: await `fetch`; on rejection return
`{ ok: false, error: String(e) }`; on a response build the info record,
with `preview` the first 1000 characters of the body text, or the fixed
placeholder when reading the body fails. -/
def tryFetchInfo (env : Env) (url : String) : ProbeResult :=
  match env.fetch url with
  | .throws e => .fetchError e
  | .response ok status rurl acao bodyText =>
      .fetched ok status rurl acao
        (match bodyText with
          | .ok txt => txt.take 1000
          | .error _ => "(preview not available)")

/-- The fixed `MODEL_CANDIDATES` list of the source. -/
def MODEL_CANDIDATES : List String :=
  ["./model.json", "/model.json", "model.json", "./static/model/model.json",
   "static/model/model.json", "./models/model.json", "/static/model/model.json"]

/-- The terminal state of one `loadModel` run: the two early returns for a
missing runtime, the early return on a successful load (carrying the handle
and the winning candidate), or falling out of the loop with the retained
last load error. -/
inductive LoadOutcome where
  | runtimeUnavailableTfMissing
  | runtimeUnavailableCapMissing
  | loaded (handle : Nat) (sourceCandidate : String)
  | failed (lastError : Option String)
deriving DecidableEq

/-- Observable result of a `loadModel` run: the outcome, the probe results
recorded (logged) per probed candidate in probe order, the candidates on
which `tf.loadLayersModel` was actually invoked, the final value of the
`model` slot, how many times the `model` slot was assigned, the final
`output.textContent`, whether the loader element is left visible, and the
probe results produced by the final diagnostic re-probe pass (written only
to the console log). -/
structure LoadResult where
  outcome : LoadOutcome
  probes : List (String × ProbeResult)
  loadAttempts : List String
  modelSlot : Option Nat
  modelWrites : Nat
  outputText : String
  loaderShown : Bool
  diagLog : List (String × ProbeResult)
deriving DecidableEq

/-- The `for (const candidate of ...)` loop of `loadModel`.  The accumulators
carry `lastError`, the probe results logged so far, and the candidates
load-attempted so far.  `.inl` is the early `return` on a successful load;
`.inr` is falling out of the loop with the final accumulator values. -/
def loadModelLoop (env : Env) :
    List String → Option String → List (String × ProbeResult) → List String →
    LoadResult ⊕ (Option String × List (String × ProbeResult) × List String)
  | [], lastError, probes, attempts => .inr (lastError, probes, attempts)
  | candidate :: rest, lastError, probes, attempts =>
    let fetchInfo := tryFetchInfo env candidate
    let probes2 := probes ++ [(candidate, fetchInfo)]
    if fetchInfo.isOk = false then
      loadModelLoop env rest lastError probes2 attempts
    else
      match env.loadLayersModel candidate with
      | .ok m =>
          .inl { outcome := .loaded m candidate
                 probes := probes2
                 loadAttempts := attempts ++ [candidate]
                 modelSlot := some m
                 modelWrites := 1
                 outputText := "Model loaded. Upload an image to start."
                 loaderShown := false
                 diagLog := [] }
      | .error e => loadModelLoop env rest (some e) probes2 (attempts ++ [candidate])

/-- Embedding of `loadModel`, generalised over the candidate list exactly as
the spec's `locateAndLoad(candidates)` contract (the source closes over
`MODEL_CANDIDATES`; both the loop and the final diagnostic re-probe pass walk
that same list).  The two runtime checks come first; then the loop; if the
loop exhausts the list, the failure branch reports the last error and
fires the diagnostic re-probe of every candidate into the log. -/
def loadModel (env : Env) (candidates : List String) : LoadResult :=
  if env.tfDefined = false then
    { outcome := .runtimeUnavailableTfMissing
      probes := []
      loadAttempts := []
      modelSlot := none
      modelWrites := 0
      outputText := "TensorFlow.js not loaded. Check network/CSP."
      loaderShown := false
      diagLog := [] }
  else if env.loadLayersModelIsFunction = false then
    { outcome := .runtimeUnavailableCapMissing
      probes := []
      loadAttempts := []
      modelSlot := none
      modelWrites := 0
      outputText := "Incompatible TF.js build: loadLayersModel missing."
      loaderShown := false
      diagLog := [] }
  else
    match loadModelLoop env candidates none [] [] with
    | .inl r => r
    | .inr (lastError, probes, attempts) =>
        { outcome := .failed lastError
          probes := probes
          loadAttempts := attempts
          modelSlot := none
          modelWrites := 0
          outputText := "Model not loaded. See console for details."
          loaderShown := false
          diagLog := candidates.map (fun c => (c, tryFetchInfo env c)) }

/-- Modelled from the spec: the from-scratch implementation §4.1 allows,
identical to `loadModel` except that it "may omit" the final diagnostic
re-probe pass, so its failure branch writes nothing to the diagnostic log. -/
def loadModelNoReprobe (env : Env) (candidates : List String) : LoadResult :=
  if env.tfDefined = false then
    { outcome := .runtimeUnavailableTfMissing
      probes := []
      loadAttempts := []
      modelSlot := none
      modelWrites := 0
      outputText := "TensorFlow.js not loaded. Check network/CSP."
      loaderShown := false
      diagLog := [] }
  else if env.loadLayersModelIsFunction = false then
    { outcome := .runtimeUnavailableCapMissing
      probes := []
      loadAttempts := []
      modelSlot := none
      modelWrites := 0
      outputText := "Incompatible TF.js build: loadLayersModel missing."
      loaderShown := false
      diagLog := [] }
  else
    match loadModelLoop env candidates none [] [] with
    | .inl r => r
    | .inr (lastError, probes, attempts) =>
        { outcome := .failed lastError
          probes := probes
          loadAttempts := attempts
          modelSlot := none
          modelWrites := 0
          outputText := "Model not loaded. See console for details."
          loaderShown := false
          diagLog := [] }

/-- Whether the probe of a candidate reports success (`fetchInfo.ok`). -/
def probeOk (env : Env) (c : String) : Bool :=
  (tryFetchInfo env c).isOk

/-- Whether `tf.loadLayersModel` succeeds on a candidate. -/
def loadOk (env : Env) (c : String) : Bool :=
  match env.loadLayersModel c with
  | .ok _ => true
  | .error _ => false

/-- A candidate that both probes successfully and loads successfully. -/
def goodCandidate (env : Env) (c : String) : Bool :=
  probeOk env c && loadOk env c

/-- The probe log entry recorded for a candidate. -/
def probeEntry (env : Env) (c : String) : String × ProbeResult :=
  (c, tryFetchInfo env c)

/-- The value of `lastError` after scanning a list of candidates none of
which loads successfully: load-attempt errors overwrite it in order. -/
def lastErrorAfter (env : Env) (le : Option String) : List String → Option String
  | [] => le
  | c :: rest =>
      if probeOk env c then
        match env.loadLayersModel c with
        | .ok _ => lastErrorAfter env le rest
        | .error e => lastErrorAfter env (some e) rest
      else lastErrorAfter env le rest

/-- A concrete test environment: location "a" has its fetch throw, "b"
probes successfully but fails to load (a 200 response that is not a valid
manifest), and every other location both probes and loads successfully. -/
def envW : Env where
  tfDefined := true
  loadLayersModelIsFunction := true
  fetch := fun u =>
    if u = "a" then .throws "TypeError: Failed to fetch"
    else if u = "b" then
      .response true 200 "https://host/b" (some "*") (.ok "not a manifest")
    else .response true 200 u none (.ok "layers-model manifest")
  loadLayersModel := fun u =>
    if u = "b" then .error "SyntaxError: Unexpected token"
    else .ok 7

/-- A test environment with the runtime script absent (`tf` undefined). -/
def envNoTf : Env where
  tfDefined := false
  loadLayersModelIsFunction := false
  fetch := fun _ => .throws "unreachable"
  loadLayersModel := fun _ => .error "unreachable"

/-- A test environment with the runtime present but the layers-model
loading entry point missing. -/
def envNoCap : Env where
  tfDefined := true
  loadLayersModelIsFunction := false
  fetch := fun _ => .throws "unreachable"
  loadLayersModel := fun _ => .error "unreachable"

/-! ### Loop lemmas -/

/-- If no candidate in the list is good (probes and loads successfully), the
loop exhausts the list: every candidate is probed in order, exactly the
probe-successful ones are load-attempted, and `lastError` accumulates the
load errors in order. -/
theorem loadModelLoop_all_bad (env : Env) :
    ∀ (cs : List String), (∀ c ∈ cs, goodCandidate env c = false) →
    ∀ (le : Option String) (pr : List (String × ProbeResult)) (ats : List String),
    loadModelLoop env cs le pr ats =
      .inr (lastErrorAfter env le cs, pr ++ cs.map (probeEntry env),
            ats ++ cs.filter (probeOk env)) := by
  intro cs
  induction cs with
  | nil => intro _ le pr ats; simp [loadModelLoop, lastErrorAfter]
  | cons c rest ih =>
    intro h le pr ats
    have hc : goodCandidate env c = false := h c (by simp)
    have hrest : ∀ x ∈ rest, goodCandidate env x = false := by
      intro x hx; exact h x (by simp [hx])
    cases hp : probeOk env c with
    | false =>
      have hp2 : (tryFetchInfo env c).isOk = false := hp
      simp only [loadModelLoop]
      rw [if_pos hp2]
      rw [ih hrest le (pr ++ [(c, tryFetchInfo env c)]) ats]
      simp [lastErrorAfter, probeOk, hp2, probeEntry, List.filter_cons]
    | true =>
      have hp2 : (tryFetchInfo env c).isOk = true := hp
      have hl : loadOk env c = false := by simpa [goodCandidate, hp] using hc
      cases hload : env.loadLayersModel c with
      | ok m => simp [loadOk, hload] at hl
      | error e =>
        simp only [loadModelLoop]
        rw [if_neg (by simp [hp2])]
        simp only [hload]
        rw [ih hrest (some e) (pr ++ [(c, tryFetchInfo env c)]) (ats ++ [c])]
        simp [lastErrorAfter, probeOk, hp2, hload, probeEntry, List.filter_cons]

/-- If the list splits as `pre ++ c₀ :: post` where nothing in `pre` is good
and `c₀` both probes successfully and loads to handle `m`, the loop stops at
`c₀` with the loaded result: `pre` and `c₀` are probed (nothing later), the
probe-successful part of `pre` plus `c₀` are load-attempted, and the model
slot is written once with `m`. -/
theorem loadModelLoop_first_good (env : Env) :
    ∀ (pre : List String) (c₀ : String) (post : List String) (m : Nat),
    (∀ c ∈ pre, goodCandidate env c = false) →
    probeOk env c₀ = true → env.loadLayersModel c₀ = .ok m →
    ∀ (le : Option String) (pr : List (String × ProbeResult)) (ats : List String),
    loadModelLoop env (pre ++ c₀ :: post) le pr ats =
      .inl { outcome := .loaded m c₀
             probes := pr ++ (pre ++ [c₀]).map (probeEntry env)
             loadAttempts := ats ++ pre.filter (probeOk env) ++ [c₀]
             modelSlot := some m
             modelWrites := 1
             outputText := "Model loaded. Upload an image to start."
             loaderShown := false
             diagLog := [] } := by
  intro pre
  induction pre with
  | nil =>
    intro c₀ post m _ hprobe hload le pr ats
    have hp2 : (tryFetchInfo env c₀).isOk = true := hprobe
    simp only [List.nil_append, loadModelLoop]
    rw [if_neg (by simp [hp2])]
    simp only [hload]
    simp [probeEntry]
  | cons c pre2 ih =>
    intro c₀ post m hpre hprobe hload le pr ats
    have hc : goodCandidate env c = false := hpre c (by simp)
    have hpre2 : ∀ x ∈ pre2, goodCandidate env x = false := by
      intro x hx; exact hpre x (by simp [hx])
    cases hp : probeOk env c with
    | false =>
      have hp2 : (tryFetchInfo env c).isOk = false := hp
      simp only [List.cons_append, loadModelLoop]
      rw [if_pos hp2]
      simp only [List.append_eq]
      rw [ih c₀ post m hpre2 hprobe hload le (pr ++ [(c, tryFetchInfo env c)]) ats]
      simp [probeEntry, probeOk, hp2, List.filter_cons]
    | true =>
      have hp2 : (tryFetchInfo env c).isOk = true := hp
      have hl : loadOk env c = false := by simpa [goodCandidate, hp] using hc
      cases hloadc : env.loadLayersModel c with
      | ok m2 => simp [loadOk, hloadc] at hl
      | error e =>
        simp only [List.cons_append, loadModelLoop]
        rw [if_neg (by simp [hp2])]
        simp only [hloadc, List.append_eq]
        rw [ih c₀ post m hpre2 hprobe hload (some e)
          (pr ++ [(c, tryFetchInfo env c)]) (ats ++ [c])]
        simp [probeEntry, probeOk, hp2, List.filter_cons]

/-- Converse characterization: if the loop falls out (`.inr`), no candidate
was good, every candidate was probed in order, and exactly the
probe-successful ones were load-attempted. -/
theorem loadModelLoop_inr_charac (env : Env) :
    ∀ (cs : List String) (le : Option String) (pr : List (String × ProbeResult))
      (ats : List String)
      (out : Option String × List (String × ProbeResult) × List String),
    loadModelLoop env cs le pr ats = .inr out →
    (∀ c ∈ cs, goodCandidate env c = false) ∧
    out = (lastErrorAfter env le cs, pr ++ cs.map (probeEntry env),
           ats ++ cs.filter (probeOk env)) := by
  intro cs
  induction cs with
  | nil =>
    intro le pr ats out h
    simp only [loadModelLoop] at h
    simp [lastErrorAfter, ← (Sum.inr.injEq _ _).mp h]
  | cons c rest ih =>
    intro le pr ats out h
    cases hp : probeOk env c with
    | false =>
      have hp2 : (tryFetchInfo env c).isOk = false := hp
      simp only [loadModelLoop] at h
      rw [if_pos hp2] at h
      obtain ⟨hbad, hout⟩ := ih le (pr ++ [(c, tryFetchInfo env c)]) ats out h
      constructor
      · intro x hx
        rcases List.mem_cons.mp hx with hx | hx
        · subst hx; simp [goodCandidate, probeOk, hp2]
        · exact hbad x hx
      · rw [hout]
        simp [lastErrorAfter, probeOk, hp2, probeEntry, List.filter_cons]
    | true =>
      have hp2 : (tryFetchInfo env c).isOk = true := hp
      simp only [loadModelLoop] at h
      rw [if_neg (by simp [hp2])] at h
      cases hload : env.loadLayersModel c with
      | ok m => rw [hload] at h; simp at h
      | error e =>
        rw [hload] at h
        obtain ⟨hbad, hout⟩ := ih (some e) (pr ++ [(c, tryFetchInfo env c)]) (ats ++ [c]) out h
        constructor
        · intro x hx
          rcases List.mem_cons.mp hx with hx | hx
          · subst hx; simp [goodCandidate, loadOk, hload]
          · exact hbad x hx
        · rw [hout]
          simp [lastErrorAfter, probeOk, hp2, hload, probeEntry, List.filter_cons]

/-- Converse characterization: if the loop returns early (`.inl`), the list
splits at a first good candidate `c₀`, the result is the loaded record, the
probes stop at `c₀`, and the model slot was written exactly once. -/
theorem loadModelLoop_inl_charac (env : Env) :
    ∀ (cs : List String) (le : Option String) (pr : List (String × ProbeResult))
      (ats : List String) (r : LoadResult),
    loadModelLoop env cs le pr ats = .inl r →
    ∃ m c₀ pre post,
      cs = pre ++ c₀ :: post ∧
      (∀ c ∈ pre, goodCandidate env c = false) ∧
      probeOk env c₀ = true ∧
      env.loadLayersModel c₀ = Except.ok m ∧
      r = { outcome := .loaded m c₀
            probes := pr ++ (pre ++ [c₀]).map (probeEntry env)
            loadAttempts := ats ++ pre.filter (probeOk env) ++ [c₀]
            modelSlot := some m
            modelWrites := 1
            outputText := "Model loaded. Upload an image to start."
            loaderShown := false
            diagLog := [] } := by
  intro cs
  induction cs with
  | nil => intro le pr ats r h; simp [loadModelLoop] at h
  | cons c rest ih =>
    intro le pr ats r h
    cases hp : probeOk env c with
    | false =>
      have hp2 : (tryFetchInfo env c).isOk = false := hp
      simp only [loadModelLoop] at h
      rw [if_pos hp2] at h
      obtain ⟨m, c₀, pre, post, hsplit, hpre, hprobe, hload, hr⟩ :=
        ih le (pr ++ [(c, tryFetchInfo env c)]) ats r h
      refine ⟨m, c₀, c :: pre, post, by simp [hsplit], ?_, hprobe, hload, ?_⟩
      · intro x hx
        rcases List.mem_cons.mp hx with hx | hx
        · subst hx; simp [goodCandidate, probeOk, hp2]
        · exact hpre x hx
      · rw [hr]
        simp [probeEntry, probeOk, hp2, List.filter_cons]
    | true =>
      have hp2 : (tryFetchInfo env c).isOk = true := hp
      simp only [loadModelLoop] at h
      rw [if_neg (by simp [hp2])] at h
      cases hload : env.loadLayersModel c with
      | ok m =>
        rw [hload] at h
        refine ⟨m, c, [], rest, by simp, by simp, hp, hload, ?_⟩
        rw [← (Sum.inl.injEq _ _).mp h]
        simp [probeEntry]
      | error e =>
        rw [hload] at h
        obtain ⟨m, c₀, pre, post, hsplit, hpre, hprobe, hload₀, hr⟩ :=
          ih (some e) (pr ++ [(c, tryFetchInfo env c)]) (ats ++ [c]) r h
        refine ⟨m, c₀, c :: pre, post, by simp [hsplit], ?_, hprobe, hload₀, ?_⟩
        · intro x hx
          rcases List.mem_cons.mp hx with hx | hx
          · subst hx; simp [goodCandidate, loadOk, hload]
          · exact hpre x hx
        · rw [hr]
          simp [probeEntry, probeOk, hp2, List.filter_cons]

/-- The candidates underlying a list of probe log entries. -/
theorem map_fst_probeEntry (env : Env) (cs : List String) :
    (cs.map (probeEntry env)).map Prod.fst = cs := by
  induction cs with
  | nil => rfl
  | cons c rest ih => simp [probeEntry, ih]

/-! ### Claim theorems -/

/-- C1: for every candidate list, if some candidate both probes successfully
and loads successfully (first such candidate `c₀`, preceded only by non-good
candidates), `loadModel` returns the `Loaded` outcome with `sourceCandidate`
`c₀`, and no candidate after `c₀` is probed or load-attempted: the probe log
stops at `c₀` and the load attempts stop at `c₀`. -/
theorem loadModel_first_good_wins (env : Env) (candidates pre post : List String)
    (c₀ : String) (m : Nat)
    (htf : env.tfDefined = true) (hcap : env.loadLayersModelIsFunction = true)
    (hsplit : candidates = pre ++ c₀ :: post)
    (hpre : ∀ c ∈ pre, goodCandidate env c = false)
    (hprobe : probeOk env c₀ = true)
    (hload : env.loadLayersModel c₀ = Except.ok m) :
    (loadModel env candidates).outcome = .loaded m c₀ ∧
    (loadModel env candidates).probes = (pre ++ [c₀]).map (probeEntry env) ∧
    (loadModel env candidates).loadAttempts = pre.filter (probeOk env) ++ [c₀] := by
  subst hsplit
  unfold loadModel
  rw [if_neg (by simp [htf]), if_neg (by simp [hcap])]
  rw [loadModelLoop_first_good env pre c₀ post m hpre hprobe hload none [] []]
  simp

/-- C2: with the runtime absent (`tf` undefined) `loadModel` stops with the
runtime-missing outcome before probing anything; with the runtime present
but `loadLayersModel` not a function it stops with the distinct
capability-missing outcome, again before probing anything; the two terminal
outcomes are distinct. -/
theorem loadModel_runtime_unavailable (env : Env) (candidates : List String) :
    (env.tfDefined = false →
      (loadModel env candidates).outcome = .runtimeUnavailableTfMissing ∧
      (loadModel env candidates).probes = [] ∧
      (loadModel env candidates).loadAttempts = []) ∧
    (env.tfDefined = true → env.loadLayersModelIsFunction = false →
      (loadModel env candidates).outcome = .runtimeUnavailableCapMissing ∧
      (loadModel env candidates).probes = [] ∧
      (loadModel env candidates).loadAttempts = []) ∧
    LoadOutcome.runtimeUnavailableCapMissing ≠ LoadOutcome.runtimeUnavailableTfMissing := by
  refine ⟨?_, ?_, by simp⟩
  · intro htf
    unfold loadModel
    rw [if_pos htf]
    exact ⟨rfl, rfl, rfl⟩
  · intro htf hcap
    unfold loadModel
    rw [if_neg (by simp [htf]), if_pos hcap]
    exact ⟨rfl, rfl, rfl⟩

/-- C5: if every candidate fails at the probe step or the load step,
`loadModel` ends in the `Failed` outcome carrying the last load error, and
its probe log holds exactly one entry per candidate of the original list in
the original order. -/
theorem loadModel_all_fail (env : Env) (candidates : List String)
    (htf : env.tfDefined = true) (hcap : env.loadLayersModelIsFunction = true)
    (hfail : ∀ c ∈ candidates, goodCandidate env c = false) :
    (loadModel env candidates).outcome = .failed (lastErrorAfter env none candidates) ∧
    (loadModel env candidates).probes = candidates.map (probeEntry env) ∧
    (loadModel env candidates).modelSlot = none := by
  unfold loadModel
  rw [if_neg (by simp [htf]), if_neg (by simp [hcap])]
  rw [loadModelLoop_all_bad env candidates hfail none [] []]
  simp

/-- C3: a candidate whose existence probe reports failure is handled by
recording its ProbeResult and moving on — one loop step on such a candidate
appends its probe entry to the log and continues with the remaining
candidates, leaving the load attempts and the last error untouched, so the
runtime's load operation is never called on it; moreover, in any full run
every recorded probe entry is exactly the probe result of its candidate, and
a candidate occurrence is load-attempted precisely when its probe reported
success. -/
theorem loadModel_probe_fail_skips_load (env : Env) (c : String)
    (rest candidates : List String)
    (hprobe : probeOk env c = false) :
    (∀ (le : Option String) (pr : List (String × ProbeResult)) (ats : List String),
      loadModelLoop env (c :: rest) le pr ats =
        loadModelLoop env rest le (pr ++ [(c, tryFetchInfo env c)]) ats) ∧
    (∀ p ∈ (loadModel env candidates).probes, p.2 = tryFetchInfo env p.1) ∧
    (loadModel env candidates).loadAttempts =
      ((loadModel env candidates).probes.map Prod.fst).filter (probeOk env) := by
  have hp2 : (tryFetchInfo env c).isOk = false := hprobe
  refine ⟨?_, ?_⟩
  · intro le pr ats
    simp only [loadModelLoop]
    rw [if_pos hp2]
  by_cases htf : env.tfDefined = false
  · constructor
    · intro p hp; simp [loadModel, htf] at hp
    · simp [loadModel, htf]
  · by_cases hcap : env.loadLayersModelIsFunction = false
    · constructor
      · intro p hp; simp [loadModel, htf, hcap] at hp
      · simp [loadModel, htf, hcap]
    · cases h : loadModelLoop env candidates none [] [] with
      | inl r =>
        obtain ⟨m, c₀, pre, post, hsplit, hpre, hprobe, hload, hr⟩ :=
          loadModelLoop_inl_charac env candidates none [] [] r h
        have hres : loadModel env candidates = r := by
          unfold loadModel
          rw [if_neg htf, if_neg hcap, h]
        rw [hres, hr]
        constructor
        · intro p hp
          simp only [List.nil_append] at hp
          obtain ⟨c, _, rfl⟩ := List.mem_map.mp hp
          rfl
        · dsimp only
          simp only [List.nil_append]
          rw [map_fst_probeEntry]
          simp [List.filter_append, List.filter_cons, hprobe]
      | inr out =>
        obtain ⟨le, pr2, ats2⟩ := out
        obtain ⟨hbad, hout⟩ := loadModelLoop_inr_charac env candidates none [] []
          (le, pr2, ats2) h
        simp only [Prod.mk.injEq, List.nil_append] at hout
        obtain ⟨hle, hpr, hats⟩ := hout
        have hres : loadModel env candidates =
            { outcome := .failed le
              probes := pr2
              loadAttempts := ats2
              modelSlot := none
              modelWrites := 0
              outputText := "Model not loaded. See console for details."
              loaderShown := false
              diagLog := candidates.map (fun c => (c, tryFetchInfo env c)) } := by
          unfold loadModel
          rw [if_neg htf, if_neg hcap, h]
        rw [hres]
        constructor
        · intro p hp
          simp only [hpr] at hp
          obtain ⟨c, _, rfl⟩ := List.mem_map.mp hp
          rfl
        · rw [hpr, hats, map_fst_probeEntry]

/-- C4: a candidate whose probe succeeds but whose load throws is treated as
a load failure, not a probe failure: the loop records its probe result,
marks its load attempt, retains the thrown error as the new last error, and
continues with the remaining candidates rather than terminating; on a
one-candidate list the run ends `Failed` with that error and exactly one
probe entry recorded. -/
theorem loadModel_load_failure_continues (env : Env) (c : String)
    (rest : List String) (e : String)
    (htf : env.tfDefined = true) (hcap : env.loadLayersModelIsFunction = true)
    (hprobe : probeOk env c = true)
    (hload : env.loadLayersModel c = Except.error e) :
    (∀ (le : Option String) (pr : List (String × ProbeResult)) (ats : List String),
      loadModelLoop env (c :: rest) le pr ats =
        loadModelLoop env rest (some e) (pr ++ [(c, tryFetchInfo env c)]) (ats ++ [c])) ∧
    (loadModel env [c]).outcome = .failed (some e) ∧
    (loadModel env [c]).probes = [(c, tryFetchInfo env c)] ∧
    (loadModel env [c]).loadAttempts = [c] := by
  have hp2 : (tryFetchInfo env c).isOk = true := hprobe
  constructor
  · intro le pr ats
    simp only [loadModelLoop]
    rw [if_neg (by simp [hp2])]
    simp only [hload]
  · have hbad : ∀ x ∈ [c], goodCandidate env x = false := by
      intro x hx
      rw [List.mem_singleton.mp hx]
      simp [goodCandidate, loadOk, hload]
    unfold loadModel
    rw [if_neg (by simp [htf]), if_neg (by simp [hcap])]
    rw [loadModelLoop_all_bad env [c] hbad none [] []]
    simp [lastErrorAfter, probeOk, hp2, hload, probeEntry, List.filter_cons]

/-- C6: in any single run the `model` slot is assigned at most once — exactly
once when and only when the outcome is `Loaded`, in which case the slot holds
that handle — and once the loaded outcome is reached no further candidate is
probed or load-attempted: the probe log stops at the source candidate and
every load attempt lies at or before it. -/
theorem loadModel_model_slot_once (env : Env) (candidates : List String) :
    (loadModel env candidates).modelWrites ≤ 1 ∧
    ((loadModel env candidates).modelWrites = 1 ↔
      ∃ m c₀, (loadModel env candidates).outcome = .loaded m c₀) ∧
    (∀ m c₀, (loadModel env candidates).outcome = .loaded m c₀ →
      (loadModel env candidates).modelSlot = some m ∧
      ∃ pre post, candidates = pre ++ c₀ :: post ∧
        (loadModel env candidates).probes.map Prod.fst = pre ++ [c₀] ∧
        ∀ a ∈ (loadModel env candidates).loadAttempts, a ∈ pre ++ [c₀]) := by
  by_cases htf : env.tfDefined = false
  · refine ⟨by simp [loadModel, htf], by simp [loadModel, htf], ?_⟩
    intro m c₀ hout
    simp [loadModel, htf] at hout
  · by_cases hcap : env.loadLayersModelIsFunction = false
    · refine ⟨by simp [loadModel, htf, hcap], by simp [loadModel, htf, hcap], ?_⟩
      intro m c₀ hout
      simp [loadModel, htf, hcap] at hout
    · cases h : loadModelLoop env candidates none [] [] with
      | inl r =>
        obtain ⟨m, c₀, pre, post, hsplit, hpre, hprobe, hload, hr⟩ :=
          loadModelLoop_inl_charac env candidates none [] [] r h
        have hres : loadModel env candidates = r := by
          unfold loadModel
          rw [if_neg htf, if_neg hcap, h]
        rw [hres, hr]
        refine ⟨by simp, by simp, ?_⟩
        intro m2 c₂ hout
        dsimp only at hout ⊢
        obtain ⟨hm, hc⟩ := LoadOutcome.loaded.inj hout
        subst hm; subst hc
        refine ⟨rfl, pre, post, hsplit, ?_, ?_⟩
        · simp only [List.nil_append]
          rw [map_fst_probeEntry]
        · intro a ha
          simp only [List.nil_append] at ha
          rcases List.mem_append.mp ha with ha | ha
          · exact List.mem_append.mpr (Or.inl (List.mem_of_mem_filter ha))
          · exact List.mem_append.mpr (Or.inr ha)
      | inr out =>
        obtain ⟨le, pr2, ats2⟩ := out
        have hres : loadModel env candidates =
            { outcome := .failed le
              probes := pr2
              loadAttempts := ats2
              modelSlot := none
              modelWrites := 0
              outputText := "Model not loaded. See console for details."
              loaderShown := false
              diagLog := candidates.map (fun c => (c, tryFetchInfo env c)) } := by
          unfold loadModel
          rw [if_neg htf, if_neg hcap, h]
        rw [hres]
        refine ⟨by simp, by simp, ?_⟩
        intro m c₀ hout
        simp at hout

/-- C7: the final diagnostic re-probe pass is fire-and-forget: it writes only
to the logging sink (the `diagLog` field), so an implementation that omits it
(`loadModelNoReprobe`) agrees with `loadModel` on every observable of the run
— outcome, probe log, load attempts, model slot, write count, output text,
and loader visibility. -/
theorem loadModel_reprobe_fire_and_forget (env : Env) (candidates : List String) :
    (loadModelNoReprobe env candidates).outcome = (loadModel env candidates).outcome ∧
    (loadModelNoReprobe env candidates).probes = (loadModel env candidates).probes ∧
    (loadModelNoReprobe env candidates).loadAttempts =
      (loadModel env candidates).loadAttempts ∧
    (loadModelNoReprobe env candidates).modelSlot = (loadModel env candidates).modelSlot ∧
    (loadModelNoReprobe env candidates).modelWrites =
      (loadModel env candidates).modelWrites ∧
    (loadModelNoReprobe env candidates).outputText = (loadModel env candidates).outputText ∧
    (loadModelNoReprobe env candidates).loaderShown =
      (loadModel env candidates).loaderShown := by
  by_cases htf : env.tfDefined = false
  · simp [loadModel, loadModelNoReprobe, htf]
  · by_cases hcap : env.loadLayersModelIsFunction = false
    · simp [loadModel, loadModelNoReprobe, htf, hcap]
    · cases h : loadModelLoop env candidates none [] [] with
      | inl r => simp [loadModel, loadModelNoReprobe, htf, hcap, h]
      | inr out =>
        obtain ⟨le, pr2, ats2⟩ := out
        simp [loadModel, loadModelNoReprobe, htf, hcap, h]

/-- C8: two runs of `loadModel` over the same candidate list, with the
external runtime flags, probe operation, and load operation answering the
same both times, produce the same observable outcome — in particular the
same loaded source candidate — and issue the very same fresh probe sequence
(nothing is cached away between runs). -/
theorem loadModel_rerun_same_outcome (env1 env2 : Env) (candidates : List String)
    (h1 : env1.tfDefined = env2.tfDefined)
    (h2 : env1.loadLayersModelIsFunction = env2.loadLayersModelIsFunction)
    (h3 : env1.fetch = env2.fetch)
    (h4 : env1.loadLayersModel = env2.loadLayersModel) :
    (loadModel env1 candidates).outcome = (loadModel env2 candidates).outcome ∧
    (loadModel env1 candidates).probes = (loadModel env2 candidates).probes := by
  cases env1 with
  | mk a b f g =>
    cases env2 with
    | mk a2 b2 f2 g2 =>
      have e1 : a = a2 := h1
      have e2 : b = b2 := h2
      have e3 : f = f2 := h3
      have e4 : g = g2 := h4
      subst e1; subst e2; subst e3; subst e4
      exact ⟨rfl, rfl⟩

/-- C9: when the fetch of a probe succeeds, `tryFetchInfo` builds the info
record from the response's success flag, status code, effective URL and
cross-origin header, with a preview that is the first 1000 characters of the
body text when the body can be read and the fixed placeholder otherwise;
the preview of a readable body never exceeds 1000 characters. -/
theorem tryFetchInfo_success_fields (env : Env) (url : String) (ok : Bool)
    (status : Nat) (rurl : String) (acao : Option String)
    (bodyText : Except String String)
    (h : env.fetch url = .response ok status rurl acao bodyText) :
    (∀ txt, bodyText = Except.ok txt →
      tryFetchInfo env url = .fetched ok status rurl acao (txt.take 1000) ∧
      (txt.take 1000).length ≤ 1000) ∧
    (∀ err, bodyText = Except.error err →
      tryFetchInfo env url = .fetched ok status rurl acao "(preview not available)") := by
  constructor
  · intro txt ht
    subst ht
    constructor
    · unfold tryFetchInfo
      rw [h]
    · rw [String.take_eq]
      calc (⟨txt.data.take 1000⟩ : String).length = (txt.data.take 1000).length := rfl
        _ ≤ 1000 := by simp [List.length_take]
  · intro err he
    subst he
    unfold tryFetchInfo
    rw [h]

/-- C10: `tryFetchInfo` is total at its interface: on every fetch behaviour
it returns a probe-result value whose `ok` field is a boolean; when the fetch
throws it returns the error object with `ok = false` and the thrown error's
string description, and when the fetch resolves it returns the populated
info record with no error field. -/
theorem tryFetchInfo_total (env : Env) (url : String) :
    ((tryFetchInfo env url).isOk = true ∨ (tryFetchInfo env url).isOk = false) ∧
    (∀ e, env.fetch url = .throws e →
      tryFetchInfo env url = .fetchError e ∧
      (tryFetchInfo env url).isOk = false ∧
      (tryFetchInfo env url).errorDesc = some e) ∧
    (∀ ok status rurl acao bodyText,
      env.fetch url = .response ok status rurl acao bodyText →
      (tryFetchInfo env url).errorDesc = none ∧
      ∃ preview, tryFetchInfo env url = .fetched ok status rurl acao preview) := by
  refine ⟨?_, ?_, ?_⟩
  · cases hb : (tryFetchInfo env url).isOk with
    | false => exact Or.inr rfl
    | true => exact Or.inl rfl
  · intro e he
    simp [tryFetchInfo, he, ProbeResult.isOk, ProbeResult.errorDesc]
  · intro ok2 status2 rurl acao bodyText hr
    unfold tryFetchInfo
    rw [hr]
    cases bodyText with
    | ok txt => exact ⟨rfl, txt.take 1000, rfl⟩
    | error e2 => exact ⟨rfl, "(preview not available)", rfl⟩

/-! ### Witnesses -/

/-- Witness for the C1 theorem at a concrete environment and list: "a" fails
its probe, "b" probes but fails to load, "c" wins. -/
theorem loadModel_first_good_wins_witness :
    (loadModel envW ["a", "b", "c"]).outcome = .loaded 7 "c" ∧
    (loadModel envW ["a", "b", "c"]).probes =
      (["a", "b"] ++ ["c"]).map (probeEntry envW) ∧
    (loadModel envW ["a", "b", "c"]).loadAttempts =
      List.filter (probeOk envW) ["a", "b"] ++ ["c"] :=
  loadModel_first_good_wins envW ["a", "b", "c"] ["a", "b"] [] "c" 7 rfl rfl rfl
    (by decide) (by decide) (by decide)

/-- Witness for the C2 theorem at concrete environments missing the runtime
and missing only the loading capability. -/
theorem loadModel_runtime_unavailable_witness :
    (loadModel envNoTf MODEL_CANDIDATES).outcome = .runtimeUnavailableTfMissing ∧
    (loadModel envNoTf MODEL_CANDIDATES).probes = [] ∧
    (loadModel envNoCap MODEL_CANDIDATES).outcome = .runtimeUnavailableCapMissing ∧
    (loadModel envNoCap MODEL_CANDIDATES).probes = [] :=
  ⟨((loadModel_runtime_unavailable envNoTf MODEL_CANDIDATES).1 rfl).1,
   ((loadModel_runtime_unavailable envNoTf MODEL_CANDIDATES).1 rfl).2.1,
   ((loadModel_runtime_unavailable envNoCap MODEL_CANDIDATES).2.1 rfl rfl).1,
   ((loadModel_runtime_unavailable envNoCap MODEL_CANDIDATES).2.1 rfl rfl).2.1⟩

/-- Witness for the C3 theorem: the fetch of "a" throws, so its probe entry
is recorded and the loop continues into the rest of the list with no load
attempt on "a". -/
theorem loadModel_probe_fail_skips_load_witness :
    loadModelLoop envW ["a", "b"] none [] [] =
      loadModelLoop envW ["b"] none [("a", tryFetchInfo envW "a")] [] ∧
    (∀ p ∈ (loadModel envW ["a", "b", "c"]).probes, p.2 = tryFetchInfo envW p.1) ∧
    (loadModel envW ["a", "b", "c"]).loadAttempts =
      ((loadModel envW ["a", "b", "c"]).probes.map Prod.fst).filter (probeOk envW) :=
  ⟨(loadModel_probe_fail_skips_load envW "a" ["b"] ["a", "b", "c"] (by decide)).1
      none [] [],
   (loadModel_probe_fail_skips_load envW "a" ["b"] ["a", "b", "c"] (by decide)).2.1,
   (loadModel_probe_fail_skips_load envW "a" ["b"] ["a", "b", "c"] (by decide)).2.2⟩

/-- Witness for the C4 theorem: "b" probes with 200 but its load throws, and
the loop continues into the remaining list with the thrown error retained. -/
theorem loadModel_load_failure_continues_witness :
    loadModelLoop envW ["b", "c"] none [] [] =
      loadModelLoop envW ["c"] (some "SyntaxError: Unexpected token")
        [("b", tryFetchInfo envW "b")] ["b"] ∧
    (loadModel envW ["b"]).outcome = .failed (some "SyntaxError: Unexpected token") ∧
    (loadModel envW ["b"]).probes = [("b", tryFetchInfo envW "b")] ∧
    (loadModel envW ["b"]).loadAttempts = ["b"] :=
  ⟨(loadModel_load_failure_continues envW "b" ["c"] "SyntaxError: Unexpected token"
      rfl rfl (by decide) (by decide)).1 none [] [],
   (loadModel_load_failure_continues envW "b" ["c"] "SyntaxError: Unexpected token"
      rfl rfl (by decide) (by decide)).2.1,
   (loadModel_load_failure_continues envW "b" ["c"] "SyntaxError: Unexpected token"
      rfl rfl (by decide) (by decide)).2.2.1,
   (loadModel_load_failure_continues envW "b" ["c"] "SyntaxError: Unexpected token"
      rfl rfl (by decide) (by decide)).2.2.2⟩

/-- Witness for the C5 theorem on a list in which "a" fails its probe and
"b" fails its load. -/
theorem loadModel_all_fail_witness :
    (loadModel envW ["a", "b"]).outcome =
      .failed (lastErrorAfter envW none ["a", "b"]) ∧
    (loadModel envW ["a", "b"]).probes = (["a", "b"]).map (probeEntry envW) ∧
    (loadModel envW ["a", "b"]).modelSlot = none :=
  loadModel_all_fail envW ["a", "b"] rfl rfl (by decide)

/-- Witness for the C6 theorem at a run that loads from "c". -/
theorem loadModel_model_slot_once_witness :
    (loadModel envW ["a", "b", "c"]).modelWrites ≤ 1 ∧
    ((loadModel envW ["a", "b", "c"]).modelSlot = some 7 ∧
      ∃ pre post, ["a", "b", "c"] = pre ++ "c" :: post ∧
        (loadModel envW ["a", "b", "c"]).probes.map Prod.fst = pre ++ ["c"] ∧
        ∀ a ∈ (loadModel envW ["a", "b", "c"]).loadAttempts, a ∈ pre ++ ["c"]) :=
  ⟨(loadModel_model_slot_once envW ["a", "b", "c"]).1,
   (loadModel_model_slot_once envW ["a", "b", "c"]).2.2 7 "c" (by decide)⟩

/-- Witness for the C8 theorem: two runs against the same external answers. -/
theorem loadModel_rerun_same_outcome_witness :
    (loadModel envW ["a", "b", "c"]).outcome = (loadModel envW ["a", "b", "c"]).outcome ∧
    (loadModel envW ["a", "b", "c"]).probes = (loadModel envW ["a", "b", "c"]).probes :=
  loadModel_rerun_same_outcome envW envW ["a", "b", "c"] rfl rfl rfl rfl

/-- Witness for the C9 theorem on the 200-OK response of "b". -/
theorem tryFetchInfo_success_fields_witness :
    tryFetchInfo envW "b" =
      .fetched true 200 "https://host/b" (some "*") ("not a manifest".take 1000) ∧
    ("not a manifest".take 1000).length ≤ 1000 :=
  (tryFetchInfo_success_fields envW "b" true 200 "https://host/b" (some "*")
      (Except.ok "not a manifest") (by decide)).1 "not a manifest" rfl

/-- Witness for the C10 theorem on the throwing fetch of "a". -/
theorem tryFetchInfo_total_witness :
    tryFetchInfo envW "a" = .fetchError "TypeError: Failed to fetch" ∧
    (tryFetchInfo envW "a").isOk = false ∧
    (tryFetchInfo envW "a").errorDesc = some "TypeError: Failed to fetch" :=
  (tryFetchInfo_total envW "a").2.1 "TypeError: Failed to fetch" (by decide)

end OpalForge
